import Mathlib

/-!
Verification development for the ChainBreak graph renderer
(`src/frontend/src/components/GraphRenderer.js`).

The JavaScript component is shallowly embedded below.  Dynamic JS values
that the component inspects (strings, numbers, booleans, null/undefined)
are modelled by `JsVal`; JS numbers are modelled exactly by `ℚ` (the
component only multiplies, divides by constants, compares and clamps, so
rational arithmetic is faithful on all inputs used in the theorems).
Raw input objects are modelled by their enumerable string-keyed entries.
`Math.random()` fallback coordinates are abstracted by an explicit
parameter; no verified property depends on node positions.
-/

namespace ChainBreak

/-- Dynamic JS value as inspected by GraphRenderer.  Function-valued and
object-valued attributes are not needed by any verified property and are
not modelled (the builder drops function values, and the component never
compares object-valued source/target fields on the inputs considered). -/
inductive JsVal where
  | vUndefined : JsVal
  | vNull : JsVal
  | vBool : Bool → JsVal
  | vNum : ℚ → JsVal
  | vStr : String → JsVal
deriving DecidableEq, Repr

/-- JS truthiness (`!!v`).  `NaN` is not modelled (`ℚ` has no NaN); the
component never produces NaN on the inputs considered. -/
def jsTruthy : JsVal → Bool
  | .vUndefined => false
  | .vNull => false
  | .vBool b => b
  | .vNum q => q ≠ 0
  | .vStr s => s ≠ ""

/-- JS `a || b`. -/
def jsOr (a b : JsVal) : JsVal := if jsTruthy a then a else b

/-- JS `a ?? b` (nullish coalescing). -/
def jsCoalesce (a b : JsVal) : JsVal :=
  match a with
  | .vUndefined => b
  | .vNull => b
  | v => v

/-- JS `(v || 0)` followed by use as a number.  String/boolean numeric
coercion is not modelled: the data pipeline supplies `balance`,
`total_input_value` and `weight` as numbers or leaves them absent. -/
def jsNumOr0 : JsVal → ℚ
  | .vNum q => q
  | _ => 0

/-- JS `v > 0` for a numeric-or-absent value (`undefined > 0` is false). -/
def jsGtZero : JsVal → Bool
  | .vNum q => decide (0 < q)
  | .vBool b => b
  | _ => false

/-- JS `v <= q` for a numeric-or-absent value (`undefined <= 10` is false,
which is exactly how `runLouvainAlgorithm` treats a missing
`num_communities`). -/
def jsLeNum (v : JsVal) (q : ℚ) : Bool :=
  match v with
  | .vNum x => decide (x ≤ q)
  | _ => false

/-- A raw JS object: its enumerable own entries (unique keys, as produced
by `Object.entries`). -/
structure RawObj where
  fields : List (String × JsVal)
deriving DecidableEq, Repr

/-- Property access `o.k` (absent key reads as `undefined`). -/
def objGet (o : RawObj) (k : String) : JsVal :=
  (((o.fields.find? (fun kv => kv.1 = k)).map (fun kv => kv.2)).getD .vUndefined)

/-- The spread in `initializeGraph`'s node/edge mapping: keep entries whose
key is not excluded and whose value is neither `undefined` nor `null`
(function values, also dropped by the source, are not representable). -/
def spreadAttrs (o : RawObj) (exclude : List String) : List (String × JsVal) :=
  o.fields.filter (fun kv =>
    decide (kv.1 ∉ exclude) && kv.2 ≠ JsVal.vUndefined && kv.2 ≠ JsVal.vNull)

/-- Keys excluded from the node attribute spread in `initializeGraph`. -/
def nodeExclude : List String := ["type", "id", "label", "size", "color", "x", "y"]

/-- Keys excluded from the edge attribute spread in `initializeGraph`. -/
def edgeExclude : List String := ["source", "target", "weight", "color", "size", "type", "id"]

/-- A node of the built graph model (the object literal produced by
`initializeGraph`'s node `.map`).  The spread excludes exactly the fixed
keys, so no fixed field can be overridden by an input attribute. -/
structure GNode where
  id : String
  label : JsVal
  size : JsVal
  color : JsVal
  x : JsVal
  y : JsVal
  ty : JsVal
  attrs : List (String × JsVal)
deriving DecidableEq, Repr

/-- An edge of the built graph model (the object literal produced by
`initializeGraph`'s edge `.map`). -/
structure GEdge where
  source : JsVal
  target : JsVal
  weight : JsVal
  color : JsVal
  size : JsVal
  ty : JsVal
  attrs : List (String × JsVal)
deriving DecidableEq, Repr

/-- The graph model stored in `graphRef.current`. -/
structure GraphModel where
  nodes : List GNode
  edges : List GEdge
deriving DecidableEq, Repr

/-- Raw input `\x7bnodes, edges\x7d`.  An array element that is falsy (the
`n &&` / `e &&` guard) or not an object is modelled as `none`. -/
structure RawGraph where
  nodes : List (Option RawObj)
  edges : List (Option RawObj)

/-- Node filter of `initializeGraph`: `n && typeof n.id === 'string'`. -/
def keepNode : Option RawObj → Bool
  | none => false
  | some o =>
    match objGet o "id" with
    | .vStr _ => true
    | _ => false

/-- Node mapping of `initializeGraph`.  `rx`/`ry` stand for the
`Math.random() * 1000` fallback coordinates (abstracted; arbitrary). -/
def buildNode (rx ry : ℚ) (o : RawObj) : GNode :=
  { id := match objGet o "id" with | .vStr s => s | _ => ""
    label := jsOr (objGet o "label") (objGet o "id")
    size := .vNum 8
    color := jsOr (objGet o "color") (.vStr "#6366f1")
    x := jsCoalesce (objGet o "x") (.vNum rx)
    y := jsCoalesce (objGet o "y") (.vNum ry)
    ty := .vStr "circle"
    attrs := spreadAttrs o nodeExclude }

/-- Edge filter of `initializeGraph`:
`e && e.source && e.target && e.source !== e.target`. -/
def keepEdge : Option RawObj → Bool
  | none => false
  | some o =>
    jsTruthy (objGet o "source") && jsTruthy (objGet o "target")
      && objGet o "source" ≠ objGet o "target"

/-- Edge mapping of `initializeGraph`. -/
def buildEdge (o : RawObj) : GEdge :=
  { source := objGet o "source"
    target := objGet o "target"
    weight := jsOr (objGet o "weight") (.vNum 1)
    color := jsOr (objGet o "color") (.vStr "#94a3b8")
    size := jsOr (objGet o "size") (.vNum 1)
    ty := .vStr "line"
    attrs := spreadAttrs o edgeExclude }

/-- Filtered node list with per-node fallback coordinates supplied by
`rand` (indexed by position in the filtered list, mirroring the order in
which `Math.random()` is consumed during the `.map`). -/
def buildNodes (rand : ℕ → ℚ × ℚ) : List (Option RawObj) → ℕ → List GNode
  | [], _ => []
  | ob :: rest, i =>
    match ob with
    | some o =>
      if keepNode (some o) then
        buildNode (rand i).1 (rand i).2 o :: buildNodes rand rest (i + 1)
      else buildNodes rand rest i
    | none => buildNodes rand rest i

/-- The graph builder `initializeGraph` (GraphRenderer.js lines 27–78):
filters and maps raw nodes and edges into `graphRef.current`. -/
def initializeGraph (rand : ℕ → ℚ × ℚ) (raw : RawGraph) : GraphModel :=
  { nodes := buildNodes rand raw.nodes 0
    edges := (raw.edges.filter keepEdge).filterMap (fun oe => oe.map buildEdge) }

/-- Ids of the nodes retained in a model. -/
def nodeIds (m : GraphModel) : List String := m.nodes.map (fun n => n.id)

/-! Rendering attribute functions of `initializeD3`
(GraphRenderer.js lines 80–249).  The illicit-flag set is modelled by the
list of its `address` fields, since `initializeD3` only evaluates
`illicitAddresses.some(illicit => illicit.address === d.id)`. -/

/-- Attribute lookup on a built node (the spread-through extra keys,
e.g. `d.balance`). -/
def gattr (d : GNode) (k : String) : JsVal :=
  (((d.attrs.find? (fun kv => kv.1 = k)).map (fun kv => kv.2)).getD .vUndefined)

/-- The `isIllicit` check of `initializeD3`:
`illicitAddresses.some(illicit => illicit.address === d.id)`. -/
def isIllicit (illicit : List String) (d : GNode) : Bool :=
  illicit.contains d.id

/-- Node radius function (the `.attr('r', ...)` lambda, lines 138–142). -/
def nodeRadius (d : GNode) : ℚ :=
  if d.ty = .vStr "address" then
    max 6 (min 15 (jsNumOr0 (gattr d "balance") / 1000000000 + 6))
  else if d.ty = .vStr "transaction" then
    max 4 (min 12 (jsNumOr0 (gattr d "total_input_value") / 1000000000 + 4))
  else jsNumOr0 (jsOr d.size (.vNum 8))

/-- Node fill function (the `.attr('fill', ...)` lambda, lines 143–156). -/
def fillColor (illicit : List String) (d : GNode) : JsVal :=
  if isIllicit illicit d then .vStr "#ef4444"
  else if d.ty = .vStr "address" then
    (if jsGtZero (gattr d "balance") then .vStr "#10b981" else .vStr "#6b7280")
  else if d.ty = .vStr "transaction" then .vStr "#3b82f6"
  else jsOr d.color (.vStr "#6366f1")

/-- Node stroke function (the `.attr('stroke', ...)` lambda, lines 157–167). -/
def strokeColor (illicit : List String) (d : GNode) : JsVal :=
  if isIllicit illicit d then .vStr "#dc2626"
  else if d.ty = .vStr "address" && jsGtZero (gattr d "balance") then .vStr "#059669"
  else if d.ty = .vStr "transaction" then .vStr "#1d4ed8"
  else .vStr "#111827"

/-- Base fills that `initializeD3` assigns to a node list. -/
def baseFills (illicit : List String) (nodes : List GNode) : List JsVal :=
  nodes.map (fillColor illicit)

/-! Community overlay of `runLouvainAlgorithm`
(GraphRenderer.js lines 282–391). -/

/-- The d3 `schemeCategory10` palette. -/
def schemeCategory10 : List String :=
  ["#1f77b4", "#ff7f0e", "#2ca02c", "#d62728", "#9467bd",
   "#8c564b", "#e377c2", "#7f7f7f", "#bcbd22", "#17becf"]

/-- The d3 `schemePaired` palette. -/
def schemePaired : List String :=
  ["#a6cee3", "#1f78b4", "#b2df8a", "#33a02c", "#fb9a99", "#e31a1c",
   "#fdbf6f", "#ff7f00", "#cab2d6", "#6a3d9a", "#ffff99", "#b15928"]

/-- One lookup on a `d3.scaleOrdinal` with implicit domain: an unseen
input is appended to the domain and mapped to the next palette entry
(cyclically); a seen input keeps its first-assigned entry. -/
def ordinalStep (range : List String) (dom : List ℕ) (k : ℕ) : List ℕ × String :=
  match dom.indexOf? k with
  | some i => (dom, range.getD (i % range.length) "")
  | none => (dom ++ [k], range.getD (dom.length % range.length) "")

/-- A community partition as delivered by the service:
`nodeId → communityIndex`. -/
abbrev Partition := List (String × ℕ)

/-- JS object lookup `partition[d.id]` (`none` models `undefined`). -/
def partLookup (p : Partition) (id : String) : Option ℕ :=
  (p.find? (fun kv => kv.1 = id)).map (fun kv => kv.2)

/-- Palette selection of `runLouvainAlgorithm`: `numCommunities <= 10 ?
schemeCategory10 : schemePaired` (a missing `num_communities` compares
false and selects `schemePaired`). -/
def louvainScheme (numCom : JsVal) : List String :=
  if jsLeNum numCom 10 then schemeCategory10 else schemePaired

/-- The `.attr('fill', ...)` pass of the overlay over the node selection
in document order, threading the ordinal scale's implicit domain: a node
found in the partition gets the scale color of its community index, any
other node gets `d.color || '#6366f1'`. -/
def overlayFillsGo (range : List String) (p : Partition) :
    List GNode → List ℕ → List JsVal
  | [], _ => []
  | d :: rest, dom =>
    match partLookup p d.id with
    | some cid =>
      let step := ordinalStep range dom cid
      .vStr step.2 :: overlayFillsGo range p rest step.1
    | none => jsOr d.color (.vStr "#6366f1") :: overlayFillsGo range p rest dom

/-- Fill colors after applying one Louvain overlay (a fresh
`d3.scaleOrdinal` per application, as in the source). -/
def applyOverlayFills (p : Partition) (numCom : JsVal) (nodes : List GNode) :
    List JsVal :=
  overlayFillsGo (louvainScheme numCom) p nodes []

/-- The `data` object of a successful service response. -/
structure LouvainData where
  partition : Option Partition
  num_communities : JsVal
  modularity : JsVal
deriving DecidableEq, Repr

/-- Effect of one arriving successful response on the current fills:
when a partition is present the overlay replaces every node's fill (from
the node's own data, not from the previous fill); otherwise fills are
left unchanged (`if (svgRef.current && data.partition)`). -/
def applyResponse (nodes : List GNode) (fills : List JsVal) (d : LouvainData) :
    List JsVal :=
  match d.partition with
  | some p => applyOverlayFills p d.num_communities nodes
  | none => fills

/-- Fills after a sequence of successful responses is merged in arrival
order.  `runLouvainAlgorithm` keeps no request generation: every arriving
response is applied unconditionally. -/
def applyResponses (nodes : List GNode) (fills : List JsVal)
    (rs : List LouvainData) : List JsVal :=
  rs.foldl (applyResponse nodes) fills

/-- Outcome of one `runLouvainAlgorithm` round trip, as distinguished by
the source: the fetch rejects; `!response.ok`; `result.success` is false;
or a success payload carrying `result.data` (possibly `undefined`). -/
inductive FetchOutcome where
  | networkError : FetchOutcome
  | httpError : FetchOutcome
  | apiFailure : FetchOutcome
  | payload : Option LouvainData → FetchOutcome
deriving DecidableEq

/-- Result of one `runLouvainAlgorithm` invocation: the fills afterwards
and whether the catch block ran (`setError` + error toast). -/
structure LouvainRun where
  fills : List JsVal
  errorSet : Bool
deriving DecidableEq, Repr

/-- One `runLouvainAlgorithm` invocation (lines 282–391).  The three
throwing paths before the response is parsed leave fills untouched.  On a
payload, `data.num_communities` is read first (throws when `data` is
`undefined`); then, if a partition is present, the overlay fills are
applied (the d3 transition is already scheduled and completes even if the
code throws afterwards); then `data.modularity.toFixed(3)` throws unless
`modularity` is a number. -/
def runLouvainOutcome (nodes : List GNode) (fills0 : List JsVal) :
    FetchOutcome → LouvainRun
  | .networkError => ⟨fills0, true⟩
  | .httpError => ⟨fills0, true⟩
  | .apiFailure => ⟨fills0, true⟩
  | .payload none => ⟨fills0, true⟩
  | .payload (some d) =>
    let fills := applyResponse nodes fills0 d
    match d.modularity with
    | .vNum _ => ⟨fills, false⟩
    | _ => ⟨fills, true⟩

/-! Viewport zoom (`initializeD3` lines 117–123; `zoomIn`/`zoomOut`
lines 469–487).  The installed wheel/pinch behavior has
`scaleExtent([0.1, 10])`; the `zoomIn`/`zoomOut` buttons each construct a
fresh `d3.zoom()` whose default scale extent is `[0, ∞)` and apply
`scaleBy` 1.2 resp. 1/1.2 to the transform stored on the svg element. -/

/-- Clamp into `[lo, hi]`, as d3 constrains a requested scale into the
behavior's scale extent. -/
def clampQ (lo hi x : ℚ) : ℚ := max lo (min hi x)

/-- A zoom operation: a wheel/pinch gesture requesting scale factor `f`
through the installed behavior, or a zoom button press. -/
inductive ZoomOp where
  | wheel : ℚ → ZoomOp
  | btnZoomIn : ZoomOp
  | btnZoomOut : ZoomOp
deriving DecidableEq

/-- Effect of one zoom operation on the stored zoom scale. -/
def applyZoom (k : ℚ) : ZoomOp → ℚ
  | .wheel f => clampQ (mkRat 1 10) 10 (k * f)
  | .btnZoomIn => max 0 (k * mkRat 6 5)
  | .btnZoomOut => max 0 (k * mkRat 5 6)

/-- Scale after a sequence of zoom operations. -/
def applyZooms (k : ℚ) (ops : List ZoomOp) : ℚ :=
  ops.foldl applyZoom k

/-- A wheel/pinch gesture (handled by the installed, clamped behavior). -/
def isWheel : ZoomOp → Bool
  | .wheel _ => true
  | _ => false

/-! Drag pinning and simulation ticks (`initializeD3` lines 170–185 and
225–239).  A simulation node carries d3-force's per-node state; the tick
position update follows the d3-force documented fixed-position semantics:
after forces have accumulated into the velocity, a node with `fx` set has
its `x` reset to `fx` and `vx` zeroed, otherwise `x` advances by the
decayed velocity.  Forces are abstracted as arbitrary per-tick velocity
increments, so the theorems hold for every force configuration. -/

/-- Per-node simulation state (`d3.forceSimulation` node fields). -/
structure SimNode where
  x : ℚ
  y : ℚ
  vx : ℚ
  vy : ℚ
  fx : Option ℚ
  fy : Option ℚ
deriving DecidableEq, Repr

/-- One simulation tick acting on a node, given the force-accumulated
velocity increments `dvx`, `dvy` and the velocity decay factor. -/
def tickNode (dvx dvy decay : ℚ) (n : SimNode) : SimNode :=
  let vx := (n.vx + dvx) * decay
  let vy := (n.vy + dvy) * decay
  { x := match n.fx with | some p => p | none => n.x + vx
    y := match n.fy with | some p => p | none => n.y + vy
    vx := match n.fx with | some _ => 0 | none => vx
    vy := match n.fy with | some _ => 0 | none => vy
    fx := n.fx
    fy := n.fy }

/-- A sequence of ticks with arbitrary per-tick force increments. -/
def tickSeq (decay : ℚ) (ds : List (ℚ × ℚ)) (n : SimNode) : SimNode :=
  ds.foldl (fun m d => tickNode d.1 d.2 decay m) n

/-- Drag-start handler: `d.fx = d.x; d.fy = d.y` (line 171–175). -/
def dragStart (n : SimNode) : SimNode :=
  { n with fx := some n.x, fy := some n.y }

/-- Drag-move handler: `d.fx = event.x; d.fy = event.y` (lines 176–179). -/
def dragMove (px py : ℚ) (n : SimNode) : SimNode :=
  { n with fx := some px, fy := some py }

/-- Drag-end handler: `d.fx = null; d.fy = null` (lines 180–184). -/
def dragEnd (n : SimNode) : SimNode :=
  { n with fx := none, fy := none }

/-! Renderer initialization lifecycle (the mount `useEffect`, lines
521–553, together with `initializeD3`'s zero-size guard, lines 80–97, and
`setupResizeObserver`, lines 251–259). -/

/-- Renderer lifecycle state: `containerReady`, whether a ResizeObserver
is installed, whether an svg exists, and how many successful D3
initializations have run. -/
structure RState where
  containerReady : Bool
  observerInstalled : Bool
  svgPresent : Bool
  initCount : ℕ
deriving DecidableEq, Repr

/-- `initializeD3` on a surface of size `w × h`: a zero dimension returns
null ("postponing D3 initialization") and changes nothing; otherwise the
svg is (re)built, `containerReady` is set and the initialization counts. -/
def initD3 (w h : ℕ) (s : RState) : RState :=
  if w = 0 ∨ h = 0 then s
  else { containerReady := true, observerInstalled := s.observerInstalled,
         svgPresent := true, initCount := s.initCount + 1 }

/-- The mount `useEffect` with a surface of size `w × h`:
`setContainerReady(false)`, build the graph, call `initializeD3`, and
install the ResizeObserver only if `initializeD3` returned an svg. -/
def mount (w h : ℕ) : RState :=
  let s := initD3 w h ⟨false, false, false, 0⟩
  if s.svgPresent then { s with observerInstalled := true } else s

/-- A surface resize to `w × h`: the ResizeObserver callback re-runs
`initializeD3` — but only if an observer was installed. -/
def resize (w h : ℕ) (s : RState) : RState :=
  if s.observerInstalled then initD3 w h s else s

/-! Decidable statements of the spec claims under examination. -/

/-- Spec claim C1's consequent on a model: every edge joins two distinct
node ids, both present among the retained nodes. -/
def edgesResolvedB (m : GraphModel) : Bool :=
  m.edges.all (fun e =>
    e.source ≠ e.target
      && (match e.source with
          | .vStr s => (nodeIds m).contains s
          | _ => false)
      && (match e.target with
          | .vStr t => (nodeIds m).contains t
          | _ => false))

/-- Claim C10's consequent on a model: every edge weight is a number ≥ 1. -/
def weightsAtLeastOneB (m : GraphModel) : Bool :=
  m.edges.all (fun e =>
    match e.weight with
    | .vNum q => decide (1 ≤ q)
    | _ => false)

/-! Concrete inputs used by witnesses and counterexamples. -/

/-- Concrete fallback-coordinate seed (positions are irrelevant to every
verified property). -/
def rand0 : ℕ → ℚ × ℚ := fun _ => (0, 0)

/-- Raw input with one node `A` and one edge `A → B` whose target id `B`
names no node. -/
def rawDangling : RawGraph :=
  ⟨[some ⟨[("id", .vStr "A")]⟩],
   [some ⟨[("source", .vStr "A"), ("target", .vStr "B")]⟩]⟩

/-- Raw input whose single edge carries the truthy weight `-3` (below 1). -/
def rawNegWeight : RawGraph :=
  ⟨[some ⟨[("id", .vStr "A")]⟩, some ⟨[("id", .vStr "B")]⟩],
   [some ⟨[("source", .vStr "A"), ("target", .vStr "B"),
           ("weight", .vNum (-3))]⟩]⟩

/-! Helper lemmas shared by several claims. -/

/-- Characterize membership in the built edge list. -/
lemma mem_edges_initializeGraph (rand : ℕ → ℚ × ℚ) (raw : RawGraph)
    (e : GEdge) (he : e ∈ (initializeGraph rand raw).edges) :
    ∃ o : RawObj, some o ∈ raw.edges ∧ keepEdge (some o) = true ∧
      e = buildEdge o := by
  simp only [initializeGraph, List.mem_filterMap, List.mem_filter] at he
  obtain ⟨oe, ⟨hmem, hkeep⟩, hmap⟩ := he
  cases oe with
  | none => simp at hmap
  | some o =>
    exact ⟨o, hmem, hkeep, (Option.some.inj hmap).symm⟩

/-- `jsOr` yields a truthy value whenever the fallback is truthy. -/
lemma jsTruthy_jsOr (a b : JsVal) (hb : jsTruthy b = true) :
    jsTruthy (jsOr a b) = true := by
  unfold jsOr
  cases h : jsTruthy a
  · simp [h, hb]
  · simp [h]

/-! Claim C1. -/

/-- C1 counterexample: on the raw input with node set `A` and edge
`A → B`, `initializeGraph` keeps the edge even though its target resolves
to no retained node — dangling edges are not dropped, refuting the claim
that every surviving edge references two node ids present in the model. -/
theorem c1_dangling_edge_survives :
    edgesResolvedB (initializeGraph rand0 rawDangling) = false ∧
    (initializeGraph rand0 rawDangling).edges.length = 1 ∧
    nodeIds (initializeGraph rand0 rawDangling) = ["A"] := by
  refine ⟨?_, ?_, ?_⟩ <;> decide

/-- C1 (amended): every edge surviving `initializeGraph` has truthy,
mutually distinct source and target fields — self-loops are dropped — but
endpoints are not checked against the retained node set. -/
theorem c1_edges_truthy_distinct_endpoints (rand : ℕ → ℚ × ℚ)
    (raw : RawGraph) (e : GEdge)
    (he : e ∈ (initializeGraph rand raw).edges) :
    jsTruthy e.source = true ∧ jsTruthy e.target = true ∧
      e.source ≠ e.target := by
  obtain ⟨o, _, hkeep, heq⟩ := mem_edges_initializeGraph rand raw e he
  subst heq
  unfold keepEdge at hkeep
  simp only [Bool.and_eq_true, decide_eq_true_eq] at hkeep
  exact ⟨hkeep.1.1, hkeep.1.2, by simpa [buildEdge] using hkeep.2⟩

/-- C1 witness: the amended theorem applied to the concrete model built
from `rawNegWeight`. -/
theorem c1_edges_truthy_distinct_endpoints_witness :
    jsTruthy (buildEdge ⟨[("source", .vStr "A"), ("target", .vStr "B"),
      ("weight", .vNum (-3))]⟩).source = true ∧
    jsTruthy (buildEdge ⟨[("source", .vStr "A"), ("target", .vStr "B"),
      ("weight", .vNum (-3))]⟩).target = true ∧
    (buildEdge ⟨[("source", .vStr "A"), ("target", .vStr "B"),
      ("weight", .vNum (-3))]⟩).source ≠
      (buildEdge ⟨[("source", .vStr "A"), ("target", .vStr "B"),
        ("weight", .vNum (-3))]⟩).target :=
  c1_edges_truthy_distinct_endpoints rand0 rawNegWeight _ (by decide)

/-! Claim C10. -/

/-- C10 counterexample: an input edge with the truthy weight `-3` keeps
that weight, so the built model contains an edge of weight below 1,
refuting the claim that every model weight is at least 1. -/
theorem c10_weight_below_one_survives :
    weightsAtLeastOneB (initializeGraph rand0 rawNegWeight) = false ∧
    (initializeGraph rand0 rawNegWeight).edges.map (fun e => e.weight) =
      [.vNum (-3)] := by
  exact ⟨by decide, by decide⟩

/-- C10 (amended): every edge surviving `initializeGraph` has a truthy
weight — a falsy input weight (missing, 0, null, empty) is replaced by 1,
so in particular no zero-weight edge exists — but a truthy input weight
below 1 is kept unchanged. -/
theorem c10_weights_truthy (rand : ℕ → ℚ × ℚ) (raw : RawGraph) (e : GEdge)
    (he : e ∈ (initializeGraph rand raw).edges) :
    jsTruthy e.weight = true ∧ e.weight ≠ .vNum 0 := by
  obtain ⟨o, _, _, heq⟩ := mem_edges_initializeGraph rand raw e he
  subst heq
  have ht : jsTruthy (buildEdge o).weight = true := by
    simpa [buildEdge] using jsTruthy_jsOr (objGet o "weight") (.vNum 1) (by decide)
  refine ⟨ht, ?_⟩
  intro hz
  rw [hz] at ht
  simp [jsTruthy] at ht

/-- C10 witness: the amended theorem applied to the concrete model built
from `rawNegWeight`. -/
theorem c10_weights_truthy_witness :
    jsTruthy (buildEdge ⟨[("source", .vStr "A"), ("target", .vStr "B"),
      ("weight", .vNum (-3))]⟩).weight = true ∧
    (buildEdge ⟨[("source", .vStr "A"), ("target", .vStr "B"),
      ("weight", .vNum (-3))]⟩).weight ≠ .vNum 0 :=
  c10_weights_truthy rand0 rawNegWeight _ (by decide)

/-! Concrete nodes used by the overlay claims. -/

/-- A plain built node with id `A` (as produced by `buildNode` for the
raw node with only an `id`). -/
def nodeA : GNode :=
  ⟨"A", .vStr "A", .vNum 8, .vStr "#6366f1", .vNum 0, .vNum 0,
   .vStr "circle", []⟩

/-- A plain built node with id `B`. -/
def nodeB : GNode :=
  ⟨"B", .vStr "B", .vNum 8, .vStr "#6366f1", .vNum 0, .vNum 0,
   .vStr "circle", []⟩

/-- Fill color the overlay assigns to the node with the given id (the
entry of `applyOverlayFills` at that node's position). -/
def overlayFillOf (p : Partition) (numCom : JsVal) (nodes : List GNode)
    (id : String) : Option JsVal :=
  (((nodes.zip (applyOverlayFills p numCom nodes)).find?
    (fun nf => nf.1.id = id)).map (fun nf => nf.2))

/-! Claim C3. -/

/-- C3 counterexample: node `A` is in the illicit set, so the base render
fills it with the fixed flagged color; but applying a community overlay
whose partition contains `A` recolors it with the community palette color
(`runLouvainAlgorithm`'s fill pass never consults the illicit set), so a
community overlay does recolor a flagged node, refuting the claim. -/
theorem c3_overlay_recolors_flagged_node :
    fillColor ["A"] nodeA = .vStr "#ef4444" ∧
    strokeColor ["A"] nodeA = .vStr "#dc2626" ∧
    applyOverlayFills [("A", 0)] (.vNum 1) [nodeA] = [.vStr "#1f77b4"] ∧
    (JsVal.vStr "#1f77b4") ≠ (JsVal.vStr "#ef4444") := by
  refine ⟨by decide, by decide, by decide, by decide⟩

/-- C3 (amended): in the base render (`initializeD3`) a node whose id is
in the illicit set receives the fixed flagged fill and stroke regardless
of kind; but the community overlay recolors any node present in the
partition, flagged or not, so the flagged precedence holds only while no
overlay is applied. -/
theorem c3_flagged_fixed_base_colors (illicit : List String) (d : GNode)
    (h : isIllicit illicit d = true) :
    fillColor illicit d = .vStr "#ef4444" ∧
    strokeColor illicit d = .vStr "#dc2626" := by
  constructor
  · unfold fillColor
    simp [h]
  · unfold strokeColor
    simp [h]

/-- C3 witness: the amended theorem applied to the flagged node `A`. -/
theorem c3_flagged_fixed_base_colors_witness :
    fillColor ["A"] nodeA = .vStr "#ef4444" ∧
    strokeColor ["A"] nodeA = .vStr "#dc2626" :=
  c3_flagged_fixed_base_colors ["A"] nodeA (by decide)

/-! Claim C4. -/

/-- Raw node that the spec calls an address-kind node: string id, kind
`address`, balance 20e9 satoshi. -/
def rawAddrObj : RawObj :=
  ⟨[("id", .vStr "addr1"), ("type", .vStr "address"),
    ("balance", .vNum 20000000000)]⟩

/-- C4 (code bug): `initializeGraph` overwrites every node's `type` with
`'circle'` and excludes the input `type` from the attribute spread, so the
address/transaction branches of `initializeD3`'s radius and fill lambdas
never fire for built nodes: the address-kind raw node with balance 20e9
renders with the generic radius 8 and generic fill, not with the
balance-scaled clamped radius 15 that the `'address'` branch (and the
component's own legend and tooltips) prescribe. -/
theorem c4_builder_erases_kind_so_radius_is_generic :
    (initializeGraph rand0 ⟨[some rawAddrObj], []⟩).nodes
      = [buildNode 0 0 rawAddrObj] ∧
    (buildNode 0 0 rawAddrObj).ty = .vStr "circle" ∧
    gattr (buildNode 0 0 rawAddrObj) "balance" = .vNum 20000000000 ∧
    nodeRadius (buildNode 0 0 rawAddrObj) = 8 ∧
    fillColor [] (buildNode 0 0 rawAddrObj) = .vStr "#6366f1" ∧
    nodeRadius { buildNode 0 0 rawAddrObj with ty := .vStr "address" } = 15 := by
  refine ⟨by decide, by decide, by decide, by decide, by decide, ?_⟩
  have hb : gattr { buildNode 0 0 rawAddrObj with ty := .vStr "address" } "balance"
      = .vNum 20000000000 := by decide
  unfold nodeRadius
  rw [hb]
  norm_num [jsNumOr0, max_def, min_def]

/-! Claim C7. -/

/-- C7 counterexample: with partition `A ↦ 5, B ↦ 0`, node `A`'s
community index 5 receives the first palette color when `A` is
encountered first but the second palette color when `A` is encountered
second — `d3.scaleOrdinal`'s implicit domain assigns palette entries by
first-encounter order, so the `communityIndex → color` mapping is not an
order-independent function of the index, refuting that conjunct. -/
theorem c7_color_depends_on_encounter_order :
    overlayFillOf [("A", 5), ("B", 0)] (.vNum 2) [nodeA, nodeB] "A"
      = some (.vStr "#1f77b4") ∧
    overlayFillOf [("A", 5), ("B", 0)] (.vNum 2) [nodeB, nodeA] "A"
      = some (.vStr "#ff7f0e") ∧
    (JsVal.vStr "#1f77b4") ≠ (JsVal.vStr "#ff7f0e") := by
  refine ⟨by decide, by decide, by decide⟩

/-- C7 (amended): applying the same partition twice yields exactly the
colors of applying it once — each overlay pass recomputes every fill from
the node data and a fresh ordinal scale, so re-application is idempotent —
but the `communityIndex → color` mapping is only deterministic given the
node encounter order, not order-independent. -/
theorem c7_overlay_idempotent (nodes : List GNode) (fills0 : List JsVal)
    (d : LouvainData) :
    applyResponses nodes fills0 [d, d] = applyResponses nodes fills0 [d] := by
  cases hp : d.partition with
  | none => simp [applyResponses, applyResponse, hp]
  | some p => simp [applyResponses, applyResponse, hp]

/-! Claim C2. -/

/-- Responses are merged strictly in arrival order; the last one folds
last. -/
lemma applyResponses_concat (nodes : List GNode) (fills0 : List JsVal)
    (rs : List LouvainData) (d : LouvainData) :
    applyResponses nodes fills0 (rs ++ [d])
      = applyResponse nodes (applyResponses nodes fills0 rs) d := by
  simp [applyResponses, List.foldl_append]

/-- First successful response, carrying partition `A ↦ 0, B ↦ 0`. -/
def respP1 : LouvainData := ⟨some [("A", 0), ("B", 0)], .vNum 1, .vNum 1⟩

/-- Second (latest) successful response, carrying partition
`A ↦ 0, B ↦ 1`. -/
def respP2 : LouvainData := ⟨some [("A", 0), ("B", 1)], .vNum 2, .vNum 1⟩

/-- C2 counterexample: two detection requests are issued; the latest
request's response `respP2` arrives first and the stale first response
`respP1` arrives after it.  `runLouvainAlgorithm` keeps no request
generation, so the stale response is merged and the final coloring is
`respP1`'s, not the latest request's — the stale response is not
discarded, refuting the claim. -/
theorem c2_stale_response_overwrites_latest :
    applyResponses [nodeA, nodeB] (baseFills [] [nodeA, nodeB])
        [respP2, respP1]
      ≠ applyOverlayFills [("A", 0), ("B", 1)] (.vNum 2) [nodeA, nodeB] ∧
    applyResponses [nodeA, nodeB] (baseFills [] [nodeA, nodeB])
        [respP2, respP1]
      = applyOverlayFills [("A", 0), ("B", 0)] (.vNum 1) [nodeA, nodeB] := by
  refine ⟨by decide, by decide⟩

/-- C2 (amended): `runLouvainAlgorithm` applies every arriving successful
response unconditionally; since each overlay pass recomputes all fills
from the node data alone, the final coloring is exactly that of the last
response to arrive, whether or not it belongs to the latest request — a
stale response arriving last overwrites the newer result instead of being
discarded. -/
theorem c2_last_arriving_response_wins (nodes : List GNode)
    (fills0 : List JsVal) (rs : List LouvainData) (d : LouvainData)
    (p : Partition) (hp : d.partition = some p) :
    applyResponses nodes fills0 (rs ++ [d])
      = applyOverlayFills p d.num_communities nodes := by
  rw [applyResponses_concat]
  simp [applyResponse, hp]

/-- C2 witness: the amended theorem at the two concrete responses, stale
one arriving last. -/
theorem c2_last_arriving_response_wins_witness :
    applyResponses [nodeA, nodeB] (baseFills [] [nodeA, nodeB])
        ([respP2] ++ [respP1])
      = applyOverlayFills [("A", 0), ("B", 0)] respP1.num_communities
          [nodeA, nodeB] :=
  c2_last_arriving_response_wins [nodeA, nodeB]
    (baseFills [] [nodeA, nodeB]) [respP2] respP1 [("A", 0), ("B", 0)]
    (by decide)

/-! Claim C8. -/

/-- A malformed success payload: a partition is present but
`num_communities` and `modularity` are missing. -/
def malformedData : LouvainData := ⟨some [("A", 0)], .vUndefined, .vUndefined⟩

/-- C8 counterexample: on the malformed success response that carries a
partition but no numeric `modularity`, `runLouvainAlgorithm` first applies
the overlay colors (the fill for `A` becomes the first `schemePaired`
entry, since `undefined <= 10` is false) and only then throws at
`data.modularity.toFixed(3)` — so the error is surfaced *and* the node
fills changed, refuting the no-partial-overlay claim. -/
theorem c8_malformed_response_partial_overlay :
    (runLouvainOutcome [nodeA] (baseFills [] [nodeA])
        (.payload (some malformedData))).errorSet = true ∧
    (runLouvainOutcome [nodeA] (baseFills [] [nodeA])
        (.payload (some malformedData))).fills = [.vStr "#a6cee3"] ∧
    baseFills [] [nodeA] = [.vStr "#6366f1"] ∧
    (JsVal.vStr "#a6cee3") ≠ (JsVal.vStr "#6366f1") := by
  refine ⟨by decide, by decide, by decide, by decide⟩

/-- C8 (amended): every failure detected before the payload is decoded —
network error, non-OK HTTP response, `success:false`, or a missing `data`
object — surfaces the error and leaves every node fill exactly as it was;
only a success payload whose partition is present but whose `modularity`
is not a number recolors nodes and then surfaces the error. -/
theorem c8_prefail_outcomes_leave_fills (nodes : List GNode)
    (fills0 : List JsVal) (o : FetchOutcome)
    (h : o = .networkError ∨ o = .httpError ∨ o = .apiFailure ∨
      o = .payload none) :
    (runLouvainOutcome nodes fills0 o).fills = fills0 ∧
    (runLouvainOutcome nodes fills0 o).errorSet = true := by
  rcases h with h | h | h | h <;> subst h <;> exact ⟨rfl, rfl⟩

/-- C8 witness: the amended theorem at a concrete network failure. -/
theorem c8_prefail_outcomes_leave_fills_witness :
    (runLouvainOutcome [nodeA] (baseFills [] [nodeA])
        .networkError).fills = baseFills [] [nodeA] ∧
    (runLouvainOutcome [nodeA] (baseFills [] [nodeA])
        .networkError).errorSet = true :=
  c8_prefail_outcomes_leave_fills [nodeA] (baseFills [] [nodeA])
    .networkError (Or.inl rfl)

/-! Claim C5. -/

/-- A wheel zoom lands inside the installed scale extent. -/
lemma applyZoom_wheel_bounds (k f : ℚ) :
    mkRat 1 10 ≤ applyZoom k (.wheel f) ∧ applyZoom k (.wheel f) ≤ 10 := by
  unfold applyZoom clampQ
  constructor
  · exact le_max_left _ _
  · exact max_le (by norm_num [Rat.mkRat_eq_div]) (min_le_left _ _)

/-- C5 counterexample: thirteen presses of the zoom-in button starting
from the identity transform (`k = 1`) drive the stored scale to
`(6/5)^13 > 10` — the buttons act through a fresh `d3.zoom()` whose
default scale extent is unbounded above, so the scale leaves `[0.1, 10]`,
refuting the claim that any sequence of zoom operations stays clamped. -/
theorem c5_zoom_buttons_escape_bounds :
    10 < applyZooms 1 (List.replicate 13 .btnZoomIn) := by
  norm_num [applyZooms, applyZoom, List.replicate, Rat.mkRat_eq_div,
    max_def, min_def]

/-- C5 (amended): wheel/pinch gestures go through the behavior installed
with `scaleExtent([0.1, 10])`, so any sequence consisting only of
wheel/pinch zooms keeps the scale inside `[0.1, 10]`; the `zoomIn` /
`zoomOut` buttons, however, construct a fresh unclamped `d3.zoom()` and
can push the scale outside those bounds. -/
theorem c5_wheel_zooms_stay_clamped (k : ℚ) (ops : List ZoomOp)
    (hk : mkRat 1 10 ≤ k ∧ k ≤ 10) (hops : ops.all isWheel = true) :
    mkRat 1 10 ≤ applyZooms k ops ∧ applyZooms k ops ≤ 10 := by
  induction ops generalizing k with
  | nil => simpa [applyZooms] using hk
  | cons op rest ih =>
    simp only [List.all_cons, Bool.and_eq_true] at hops
    cases op with
    | wheel f =>
      have hstep := applyZoom_wheel_bounds k f
      have : applyZooms k (ZoomOp.wheel f :: rest)
          = applyZooms (applyZoom k (.wheel f)) rest := by
        simp [applyZooms, List.foldl]
      rw [this]
      exact ih _ hstep hops.2
    | btnZoomIn => simp [isWheel] at hops
    | btnZoomOut => simp [isWheel] at hops

/-- C5 witness: the amended theorem at the identity transform and a
concrete wheel gesture doubling the scale. -/
theorem c5_wheel_zooms_stay_clamped_witness :
    mkRat 1 10 ≤ applyZooms 1 [.wheel 2] ∧ applyZooms 1 [.wheel 2] ≤ 10 :=
  c5_wheel_zooms_stay_clamped 1 [.wheel 2] (by decide) (by decide)

/-! Claim C6. -/

/-- A pinned node stays pinned across ticks and sits at its pin position
after every tick. -/
lemma tickSeq_pinned_fixed (decay px py : ℚ) (ds : List (ℚ × ℚ))
    (m : SimNode) (hx : m.fx = some px) (hy : m.fy = some py) :
    (tickSeq decay ds m).fx = some px ∧ (tickSeq decay ds m).fy = some py := by
  induction ds generalizing m with
  | nil => exact ⟨hx, hy⟩
  | cons d rest ih =>
    have hstep : tickSeq decay (d :: rest) m
        = tickSeq decay rest (tickNode d.1 d.2 decay m) := by
      simp [tickSeq, List.foldl]
    rw [hstep]
    exact ih (tickNode d.1 d.2 decay m) (by simp [tickNode, hx])
      (by simp [tickNode, hy])

/-- Ticks compose: the last tick acts on the state after the earlier
ticks. -/
lemma tickSeq_concat (decay : ℚ) (ds : List (ℚ × ℚ)) (d : ℚ × ℚ)
    (m : SimNode) :
    tickSeq decay (ds ++ [d]) m
      = tickNode d.1 d.2 decay (tickSeq decay ds m) := by
  simp [tickSeq, List.foldl_append]

/-- After any nonempty tick sequence, a pinned node sits exactly at its
pin position. -/
lemma tickSeq_pinned_position (decay px py : ℚ) (ds : List (ℚ × ℚ))
    (m : SimNode) (hx : m.fx = some px) (hy : m.fy = some py)
    (hds : ds ≠ []) :
    (tickSeq decay ds m).x = px ∧ (tickSeq decay ds m).y = py := by
  rcases List.eq_nil_or_concat ds with rfl | ⟨init, d, rfl⟩
  · exact absurd rfl hds
  · rw [List.concat_eq_append, tickSeq_concat]
    have hpin := tickSeq_pinned_fixed decay px py init m hx hy
    constructor
    · simp [tickNode, hpin.1]
    · simp [tickNode, hpin.2]

/-- C6: once the drag handlers pin a node at `(px, py)`, every simulation
tick during the drag leaves the node exactly at `(px, py)` — for any
force increments and any number of ticks — and after the drag-end handler
unpins it, the very next tick moves it by the decayed force velocity
again (simulation-driven updates resume). -/
theorem c6_drag_pinned_never_overwritten (n : SimNode) (px py decay : ℚ)
    (ds : List (ℚ × ℚ)) (hds : ds ≠ []) :
    (tickSeq decay ds (dragMove px py n)).x = px ∧
    (tickSeq decay ds (dragMove px py n)).y = py ∧
    (∀ m : SimNode, ∀ dvx dvy : ℚ,
      (tickNode dvx dvy decay (dragEnd m)).x = m.x + (m.vx + dvx) * decay ∧
      (tickNode dvx dvy decay (dragEnd m)).y = m.y + (m.vy + dvy) * decay) := by
  have h := tickSeq_pinned_position decay px py ds (dragMove px py n)
    (by simp [dragMove]) (by simp [dragMove]) hds
  refine ⟨h.1, h.2, fun m dvx dvy => ?_⟩
  constructor
  · simp [tickNode, dragEnd]
  · simp [tickNode, dragEnd]

/-- C6 witness: the theorem at a concrete node, pin position and tick. -/
theorem c6_drag_pinned_never_overwritten_witness :
    (tickSeq 1 [(1, 1)] (dragMove 3 4 ⟨0, 0, 0, 0, none, none⟩)).x = 3 ∧
    (tickSeq 1 [(1, 1)] (dragMove 3 4 ⟨0, 0, 0, 0, none, none⟩)).y = 4 ∧
    (∀ m : SimNode, ∀ dvx dvy : ℚ,
      (tickNode dvx dvy 1 (dragEnd m)).x = m.x + (m.vx + dvx) * 1 ∧
      (tickNode dvx dvy 1 (dragEnd m)).y = m.y + (m.vy + dvy) * 1) :=
  c6_drag_pinned_never_overwritten ⟨0, 0, 0, 0, none, none⟩ 3 4 1 [(1, 1)]
    (by decide)

/-! Claim C9. -/

/-- C9 (code bug): mounting over a 0×0 surface makes `initializeD3`
return null ("postponing D3 initialization"), so the ResizeObserver —
installed only when `initializeD3` returns an svg — is never set up; a
later resize to 800×600 therefore changes nothing: `containerReady`
remains false and no re-initialization ever runs, contradicting the
claimed automatic retry.  A mount on a nonzero surface does install the
observer and initializes exactly once. -/
theorem c9_zero_size_mount_never_retried :
    resize 800 600 (mount 0 0) = mount 0 0 ∧
    (mount 0 0).containerReady = false ∧
    (mount 0 0).observerInstalled = false ∧
    (resize 800 600 (mount 0 0)).containerReady = false ∧
    (resize 800 600 (mount 0 0)).initCount = 0 ∧
    (mount 800 600).containerReady = true ∧
    (mount 800 600).initCount = 1 := by
  refine ⟨by decide, by decide, by decide, by decide, by decide, by decide,
    by decide⟩

end ChainBreak
